import Mathlib

/-!
Shallow embedding of the ShopUz backend cart and order services
(`backend/src/services/cartService.ts` and the order service in the same
module) over an explicit database state.

Monetary values (`price`, `discount`, totals) are exact rationals standing
for the JavaScript numbers; ids are naturals standing for the string ids.
Database rows are lists of records; Prisma queries become list operations
and the `$transaction` blocks become pure state transformations whose
rollback-on-failure semantics is made explicit (a failing transaction
returns the unchanged pre-state, which is what Prisma guarantees).
Presentation-only fields (image urls, timestamps, the serialized shipping
address) are omitted: no claim mentions them.
-/

inductive OrderStatus where
  | PENDING
  | CONFIRMED
  | PROCESSING
  | SHIPPED
  | DELIVERED
  | CANCELLED
  | RETURNED
deriving DecidableEq, Repr

inductive PaymentStatus where
  | PENDING
  | PAID
  | FAILED
  | REFUNDED
deriving DecidableEq, Repr

structure Product where
  id : Nat
  name : String
  price : ℚ
  stock : Int
  discount : Option ℚ
deriving DecidableEq, Repr

structure CartItemR where
  id : Nat
  userId : Nat
  productId : Nat
  quantity : Int
deriving DecidableEq, Repr

structure OrderItemR where
  productId : Nat
  quantity : Int
  price : ℚ
deriving DecidableEq, Repr

structure OrderR where
  id : Nat
  userId : Nat
  status : OrderStatus
  totalAmount : ℚ
  paymentStatus : PaymentStatus
  items : List OrderItemR
deriving DecidableEq, Repr

structure DB where
  products : List Product
  cartItems : List CartItemR
  orders : List OrderR
  nextId : Nat
deriving DecidableEq, Repr

/-- One entry of the `errors` list built by `CartService.validateCart`:
either the "Cart is empty" message or a per-item
"name: Only a available, but q requested" message. -/
inductive CartIssue where
  | empty
  | stockShort (name : String) (available : Int) (requested : Int)
deriving DecidableEq, Repr

/-- The errors thrown by the two services, one constructor per distinct
`throw new Error(...)` site reached by the operations embedded here. -/
inductive SvcError where
  | productNotFound
  | insufficientStock (available : Int)
  | cartItemNotFound
  | cartValidationFailed (issues : List CartIssue)
  | cartEmpty
  | orderNotFound
  | unauthorizedCancel
  | invalidStatusTransition (src : OrderStatus) (dst : OrderStatus)
  | cannotCancel (current : OrderStatus)
  | transactionAborted
deriving DecidableEq, Repr

/-- `Math.round(x * 100) / 100`: rounding to 2 decimal places, half away
from zero upward (JavaScript `Math.round` is `floor (x + 1/2)`). -/
def round2 (x : ℚ) : ℚ := (⌊x * 100 + 1 / 2⌋ : ℤ) / 100

/-- `prisma.product.findUnique({ where: { id } })`. -/
def findProduct (db : DB) (productId : Nat) : Option Product :=
  db.products.find? (fun p => p.id == productId)

/-- `prisma.cartItem.findMany({ where: { userId }, include: { product } })`:
the user's cart rows joined with their products. -/
def cartEntries (db : DB) (userId : Nat) : List (CartItemR × Product) :=
  (db.cartItems.filter (fun c => c.userId == userId)).filterMap
    (fun c => (findProduct db c.productId).map (fun p => (c, p)))

structure CartSummaryR where
  items : List (CartItemR × Product)
  totalItems : Int
  subtotal : ℚ
  discount : ℚ
  total : ℚ
deriving DecidableEq, Repr

/-- Loop body of `calculateCartSummary`: the accumulator is
(subtotal, discount, totalItems). -/
def summaryStep (acc : ℚ × ℚ × Int) (e : CartItemR × Product) : ℚ × ℚ × Int :=
  let itemPrice := e.2.price
  let itemDiscount := e.2.discount.getD 0
  let itemQuantity := e.1.quantity
  let itemSubtotal := itemPrice * (itemQuantity : ℚ)
  let itemDiscountAmount := itemSubtotal * itemDiscount / 100
  (acc.1 + itemSubtotal, acc.2.1 + itemDiscountAmount, acc.2.2 + itemQuantity)

/-- `CartService.calculateCartSummary`: accumulate the raw sums over the
items, then round each aggregate (and only the aggregates) to 2 decimal
places. -/
def calculateCartSummary (entries : List (CartItemR × Product)) : CartSummaryR :=
  let acc := entries.foldl summaryStep (0, 0, 0)
  { items := entries
    totalItems := acc.2.2
    subtotal := round2 acc.1
    discount := round2 acc.2.1
    total := round2 (acc.1 - acc.2.1) }

/-- `CartService.getCart`. -/
def getCart (db : DB) (userId : Nat) : CartSummaryR :=
  calculateCartSummary (cartEntries db userId)

/-- `CartService.addToCart`.  Returns the resulting cart row (or the error)
together with the post-state. -/
def addToCart (db : DB) (userId : Nat) (productId : Nat) (quantity : Int) :
    Except SvcError CartItemR × DB :=
  match findProduct db productId with
  | none => (.error .productNotFound, db)
  | some product =>
    if product.stock < quantity then
      (.error (.insufficientStock product.stock), db)
    else
      match db.cartItems.find? (fun c => c.userId == userId && c.productId == productId) with
      | some existingCartItem =>
        let newQuantity := existingCartItem.quantity + quantity
        if product.stock < newQuantity then
          (.error (.insufficientStock (product.stock - existingCartItem.quantity)), db)
        else
          let updated := { existingCartItem with quantity := newQuantity }
          (.ok updated,
            { db with cartItems :=
                db.cartItems.map (fun c => if c.id == existingCartItem.id then updated else c) })
      | none =>
        let created : CartItemR :=
          { id := db.nextId, userId := userId, productId := productId, quantity := quantity }
        (.ok created,
          { db with cartItems := db.cartItems ++ [created], nextId := db.nextId + 1 })

structure CartCheck where
  isValid : Bool
  issues : List CartIssue
  cart : CartSummaryR
deriving DecidableEq, Repr

/-- `CartService.validateCart`: an issue for the empty cart, one issue per
item whose quantity exceeds its product's stock, plus the summary. -/
def validateCart (db : DB) (userId : Nat) : CartCheck :=
  let entries := cartEntries db userId
  let emptyIssues : List CartIssue := if entries.isEmpty then [.empty] else []
  let stockIssues : List CartIssue := entries.filterMap (fun e =>
    if e.2.stock < e.1.quantity then
      some (.stockShort e.2.name e.2.stock e.1.quantity)
    else none)
  let issues := emptyIssues ++ stockIssues
  { isValid := issues.isEmpty, issues := issues, cart := calculateCartSummary entries }

/-- `CartService.syncCartWithStock`: drop the user's cart rows whose product
is out of stock, clamp quantities down to the available stock, and report
the removed and adjusted product names. -/
def syncCartWithStock (db : DB) (userId : Nat) : (List String × List String) × DB :=
  let entries := cartEntries db userId
  let removedItems := (entries.filter (fun e => e.2.stock == 0)).map (fun e => e.2.name)
  let updatedItems :=
    (entries.filter (fun e => e.2.stock != 0 && e.2.stock < e.1.quantity)).map (fun e => e.2.name)
  let keep : CartItemR → Option CartItemR := fun c =>
    if c.userId != userId then some c
    else
      match findProduct db c.productId with
      | none => some c
      | some p =>
        if p.stock == 0 then none
        else if p.stock < c.quantity then some { c with quantity := p.stock }
        else some c
  ((removedItems, updatedItems), { db with cartItems := db.cartItems.filterMap keep })

/-- `price * (1 - discount / 100)` when the product's `discount` field is
truthy (non-null and non-zero), else the raw `price`: the per-unit price
stored on an `OrderItem` by `OrderService.createOrder`. -/
def unitPrice (p : Product) : ℚ :=
  match p.discount with
  | none => p.price
  | some d => if d = 0 then p.price else p.price * (1 - d / 100)

/-- The four write steps inside the `prisma.$transaction` of
`OrderService.createOrder`, for failure injection. -/
inductive TxStep where
  | createOrderRow
  | createOrderItems
  | decrementStock
  | clearCart
deriving DecidableEq, Repr

/-- The stock-decrement loop of `OrderService.createOrder`: for each cart
entry, update the product with that entry's id by decrementing its stock
by the ordered quantity. -/
def decrementStockAll (entries : List (CartItemR × Product)) (products : List Product) :
    List Product :=
  entries.foldl
    (fun ps e =>
      ps.map (fun p =>
        if p.id == e.1.productId then { p with stock := p.stock - e.1.quantity } else p))
    products

/-- `OrderService.createOrder` with an optional injected failure of one of
the transaction steps.  A failure anywhere inside the `$transaction` makes
Prisma roll the whole transaction back, so the embedding returns the
unchanged pre-state together with the error in that case. -/
def createOrderWith (db : DB) (userId : Nat) (failAt : Option TxStep) :
    Except SvcError OrderR × DB :=
  let check := validateCart db userId
  if check.isValid = false then
    (.error (.cartValidationFailed check.issues), db)
  else if check.cart.items.isEmpty then
    (.error .cartEmpty, db)
  else if failAt.isSome then
    (.error .transactionAborted, db)
  else
    let newOrder : OrderR :=
      { id := db.nextId
        userId := userId
        status := .PENDING
        totalAmount := check.cart.total
        paymentStatus := .PENDING
        items := check.cart.items.map (fun e =>
          { productId := e.1.productId, quantity := e.1.quantity, price := unitPrice e.2 }) }
    (.ok newOrder,
      { db with
          products := decrementStockAll check.cart.items db.products
          cartItems := db.cartItems.filter (fun c => c.userId != userId)
          orders := db.orders ++ [newOrder]
          nextId := db.nextId + 1 })

/-- `OrderService.createOrder` as shipped (no injected failure). -/
def createOrder (db : DB) (userId : Nat) : Except SvcError OrderR × DB :=
  createOrderWith db userId none

/-- Modelled from the spec: the order-creation pipeline as §4.2 of the spec
describes it — "Run `syncWithStock`, then re-validate the cart" before the
transactional creation.  Kept separate from `createOrder`, which is the
embedding of the source and performs no sync; the two are compared. -/
def createOrderAsSpecified (db : DB) (userId : Nat) : Except SvcError OrderR × DB :=
  createOrder (syncCartWithStock db userId).2 userId

/-- The `validTransitions` table of `OrderService.updateOrderStatus`. -/
def validTransitions : OrderStatus → List OrderStatus
  | .PENDING => [.CONFIRMED, .CANCELLED]
  | .CONFIRMED => [.PROCESSING, .CANCELLED]
  | .PROCESSING => [.SHIPPED, .CANCELLED]
  | .SHIPPED => [.DELIVERED, .RETURNED]
  | .DELIVERED => [.RETURNED]
  | .CANCELLED => []
  | .RETURNED => []

/-- `prisma.order.findUnique({ where: { id } })`. -/
def findOrder (db : DB) (orderId : Nat) : Option OrderR :=
  db.orders.find? (fun o => o.id == orderId)

/-- `OrderService.updateOrderStatus`: look the order up, accept the new
status only if the transition table allows it, else fail naming the
current and requested statuses. -/
def updateOrderStatus (db : DB) (orderId : Nat) (status : OrderStatus) :
    Except SvcError OrderR × DB :=
  match findOrder db orderId with
  | none => (.error .orderNotFound, db)
  | some currentOrder =>
    if status ∈ validTransitions currentOrder.status then
      (.ok { currentOrder with status := status },
        { db with orders :=
            db.orders.map (fun o => if o.id == orderId then { o with status := status } else o) })
    else
      (.error (.invalidStatusTransition currentOrder.status status), db)

/-- The stock-restore loop of `OrderService.cancelOrder`: for each order
item, update the product with that item's id by incrementing its stock by
the item's quantity. -/
def restoreStockAll (items : List OrderItemR) (products : List Product) : List Product :=
  items.foldl
    (fun ps it =>
      ps.map (fun p =>
        if p.id == it.productId then { p with stock := p.stock + it.quantity } else p))
    products

/-- `OrderService.cancelOrder`: ownership check (only when a requesting
user is given), then the PENDING/CONFIRMED gate, then one transaction that
restores stock and sets the status to CANCELLED. -/
def cancelOrder (db : DB) (orderId : Nat) (requestingUserId : Option Nat) :
    Except SvcError OrderR × DB :=
  match findOrder db orderId with
  | none => (.error .orderNotFound, db)
  | some order =>
    let owned : Bool :=
      match requestingUserId with
      | some u => order.userId == u
      | none => true
    if owned = false then (.error .unauthorizedCancel, db)
    else if order.status ∈ [OrderStatus.PENDING, OrderStatus.CONFIRMED] then
      (.ok { order with status := .CANCELLED },
        { db with
            products := restoreStockAll order.items db.products
            orders := db.orders.map (fun o =>
              if o.id == orderId then { o with status := OrderStatus.CANCELLED } else o) })
    else (.error (.cannotCancel order.status), db)

/-- `OrderService.getOrderById`: when a scoping user is supplied the
`where` clause also filters by ownership, so a missing order and another
user's order are indistinguishable (both give `null`). -/
def getOrderById (db : DB) (orderId : Nat) (scopeUserId : Option Nat) : Option OrderR :=
  db.orders.find? (fun o =>
    o.id == orderId &&
      (match scopeUserId with
       | some u => o.userId == u
       | none => true))

/-- HTTP-level outcomes of the controllers, message bodies elided. -/
inductive HttpOutcome (α : Type) where
  | ok (value : α)
  | badRequest
  | notFound
  | serverError
deriving DecidableEq, Repr

/-- `OrderController.getOrder`: admins look up unscoped, users scoped to
themselves; a `null` from the service becomes a 404. -/
def getOrderHttp (db : DB) (orderId : Nat) (userId : Nat) (isAdmin : Bool) :
    HttpOutcome OrderR :=
  match getOrderById db orderId (if isAdmin then none else some userId) with
  | some o => .ok o
  | none => .notFound

/-- `CartController.addToCart`: rejects a non-positive quantity with a 400
before calling the service (`Number.isInteger` always holds in this
integer embedding); maps `productNotFound` to 404 and stock errors to 400. -/
def addToCartHttp (db : DB) (userId : Nat) (productId : Nat) (quantity : Int) :
    HttpOutcome CartItemR × DB :=
  if quantity ≤ 0 then (.badRequest, db)
  else
    match addToCart db userId productId quantity with
    | (.ok item, db2) => (.ok item, db2)
    | (.error .productNotFound, db2) => (.notFound, db2)
    | (.error (.insufficientStock _), db2) => (.badRequest, db2)
    | (.error _, db2) => (.serverError, db2)

/-! ### Supporting lemmas -/

/-- The summary loop accumulates exactly the three raw aggregates. -/
theorem foldl_summaryStep (l : List (CartItemR × Product)) (a b : ℚ) (n : Int) :
    l.foldl summaryStep (a, b, n) =
      (a + (l.map (fun e => e.2.price * (e.1.quantity : ℚ))).sum,
       b + (l.map (fun e => e.2.price * (e.1.quantity : ℚ) * (e.2.discount.getD 0) / 100)).sum,
       n + (l.map (fun e => e.1.quantity)).sum) := by
  induction l generalizing a b n with
  | nil => simp
  | cons e l ih =>
    simp only [List.foldl_cons, List.map_cons, List.sum_cons, summaryStep, ih, Prod.mk.injEq]
    refine ⟨by ring, by ring, by ring⟩

/-- Subtraction distributes over a mapped sum. -/
theorem sum_map_sub (l : List (CartItemR × Product)) (f g : CartItemR × Product → ℚ) :
    (l.map (fun e => f e - g e)).sum = (l.map f).sum - (l.map g).sum := by
  induction l with
  | nil => simp
  | cons e l ih => simp only [List.map_cons, List.sum_cons, ih]; ring

/-! ### Claim C4: cart summary arithmetic -/

/-- The four derived fields of the cart summary, in closed form over the
raw per-line aggregates. -/
theorem getCart_fields (db : DB) (u : Nat) :
    (getCart db u).totalItems = ((cartEntries db u).map (fun e => e.1.quantity)).sum ∧
    (getCart db u).subtotal =
      round2 (((cartEntries db u).map (fun e => e.2.price * (e.1.quantity : ℚ))).sum) ∧
    (getCart db u).discount =
      round2 (((cartEntries db u).map
        (fun e => e.2.price * (e.1.quantity : ℚ) * (e.2.discount.getD 0) / 100)).sum) ∧
    (getCart db u).total =
      round2 ((((cartEntries db u).map (fun e => e.2.price * (e.1.quantity : ℚ))).sum) -
        (((cartEntries db u).map
          (fun e => e.2.price * (e.1.quantity : ℚ) * (e.2.discount.getD 0) / 100)).sum)) := by
  unfold getCart calculateCartSummary
  simp only [foldl_summaryStep]
  simp

/-- Claim C4: for every cart, the summary satisfies
`totalItems = Σ quantity`, `subtotal = round2 (Σ price*qty)`,
`discount = round2 (Σ price*qty*discountPct/100)` and
`total = round2 (Σ price*qty - Σ price*qty*discountPct/100)`: each monetary
value is rounded to 2 decimal places, half up, only at the final
aggregation step, never per line item. -/
theorem getCart_summary_arithmetic (db : DB) (u : Nat) :
    (getCart db u).totalItems = ((cartEntries db u).map (fun e => e.1.quantity)).sum ∧
    (getCart db u).subtotal =
      round2 (((cartEntries db u).map (fun e => e.2.price * (e.1.quantity : ℚ))).sum) ∧
    (getCart db u).discount =
      round2 (((cartEntries db u).map
        (fun e => e.2.price * (e.1.quantity : ℚ) * (e.2.discount.getD 0) / 100)).sum) ∧
    (getCart db u).total =
      round2 ((((cartEntries db u).map (fun e => e.2.price * (e.1.quantity : ℚ))).sum) -
        (((cartEntries db u).map
          (fun e => e.2.price * (e.1.quantity : ℚ) * (e.2.discount.getD 0) / 100)).sum)) :=
  getCart_fields db u

/-! ### Claim C3: order status state machine -/

/-- Claim C3: `updateOrderStatus` succeeds exactly when the pair
(current status, requested status) is in the transition table
PENDING→{CONFIRMED, CANCELLED}, CONFIRMED→{PROCESSING, CANCELLED},
PROCESSING→{SHIPPED, CANCELLED}, SHIPPED→{DELIVERED, RETURNED},
DELIVERED→{RETURNED}, with CANCELLED and RETURNED terminal; any other
request fails with `invalidStatusTransition` naming the current and
requested status and leaves the state unchanged. -/
theorem updateOrderStatus_state_machine (db : DB) (orderId : Nat) (o : OrderR)
    (status : OrderStatus) (hfind : findOrder db orderId = some o) :
    (validTransitions .PENDING = [.CONFIRMED, .CANCELLED] ∧
      validTransitions .CONFIRMED = [.PROCESSING, .CANCELLED] ∧
      validTransitions .PROCESSING = [.SHIPPED, .CANCELLED] ∧
      validTransitions .SHIPPED = [.DELIVERED, .RETURNED] ∧
      validTransitions .DELIVERED = [.RETURNED] ∧
      validTransitions .CANCELLED = [] ∧
      validTransitions .RETURNED = []) ∧
    ((∃ o2, (updateOrderStatus db orderId status).1 = .ok o2) ↔
      status ∈ validTransitions o.status) ∧
    (status ∉ validTransitions o.status →
      (updateOrderStatus db orderId status).1 =
        .error (.invalidStatusTransition o.status status) ∧
      (updateOrderStatus db orderId status).2 = db) := by
  refine ⟨⟨rfl, rfl, rfl, rfl, rfl, rfl, rfl⟩, ?_⟩
  unfold updateOrderStatus
  rw [hfind]
  by_cases h : status ∈ validTransitions o.status
  · simp [h]
  · simp [h]

def exOrder3 : OrderR :=
  { id := 7, userId := 1, status := .PENDING, totalAmount := 300,
    paymentStatus := .PENDING, items := [] }

def exDB3 : DB := { products := [], cartItems := [], orders := [exOrder3], nextId := 8 }

/-- Witness for Claim C3: on a concrete one-order database, requesting
PENDING → DELIVERED fails with the transition error and leaves the state
unchanged. -/
theorem updateOrderStatus_state_machine_witness :
    findOrder exDB3 7 = some exOrder3 ∧
    OrderStatus.DELIVERED ∉ validTransitions exOrder3.status ∧
    ((updateOrderStatus exDB3 7 .DELIVERED).1 =
        .error (.invalidStatusTransition exOrder3.status .DELIVERED) ∧
      (updateOrderStatus exDB3 7 .DELIVERED).2 = exDB3) :=
  ⟨rfl, by decide,
    (updateOrderStatus_state_machine exDB3 7 exOrder3 .DELIVERED rfl).2.2 (by decide)⟩

/-! ### Claim C8: scoped order lookup leaks nothing -/

/-- Claim C8: when every order carrying the requested id belongs to a user
other than the scoping user, `getOrderById` scoped to that user returns
`none` — the same outcome as for an id carried by no order at all — and the
controller surfaces a 404, never the order data and never a 403. -/
theorem getOrderById_scoped_not_found (db : DB) (orderId : Nat) (u : Nat)
    (h : ∀ o ∈ db.orders, o.id = orderId → o.userId ≠ u) :
    getOrderById db orderId (some u) = none ∧
    getOrderHttp db orderId u false = .notFound ∧
    (∀ missingId, (∀ o ∈ db.orders, o.id ≠ missingId) →
      getOrderById db missingId (some u) = getOrderById db orderId (some u)) := by
  have hnone : getOrderById db orderId (some u) = none := by
    unfold getOrderById
    rw [List.find?_eq_none]
    intro o ho
    simp only [Bool.and_eq_true, beq_iff_eq, not_and]
    exact fun hid => h o ho hid
  refine ⟨hnone, ?_, ?_⟩
  · unfold getOrderHttp
    simp [hnone]
  · intro missingId hmiss
    rw [hnone]
    unfold getOrderById
    rw [List.find?_eq_none]
    intro o ho
    simp only [Bool.and_eq_true, beq_iff_eq, not_and]
    exact fun hid => absurd hid (hmiss o ho)

def exOrder8 : OrderR :=
  { id := 7, userId := 2, status := .PENDING, totalAmount := 100,
    paymentStatus := .PENDING, items := [] }

def exDB8 : DB := { products := [], cartItems := [], orders := [exOrder8], nextId := 9 }

/-- Witness for Claim C8: user 1 looking up user 2's order 7 gets `none`
and a 404, exactly as for the absent id 999. -/
theorem getOrderById_scoped_not_found_witness :
    (∀ o ∈ exDB8.orders, o.id = 7 → o.userId ≠ 1) ∧
    getOrderById exDB8 7 (some 1) = none ∧
    getOrderHttp exDB8 7 1 false = .notFound ∧
    getOrderById exDB8 999 (some 1) = getOrderById exDB8 7 (some 1) :=
  ⟨by decide,
    (getOrderById_scoped_not_found exDB8 7 1 (by decide)).1,
    (getOrderById_scoped_not_found exDB8 7 1 (by decide)).2.1,
    (getOrderById_scoped_not_found exDB8 7 1 (by decide)).2.2 999 (by decide)⟩

/-! ### Claim C10: the service accepts non-positive quantities -/

def exProd10 : Product := { id := 5, name := "A", price := 100, stock := 3, discount := none }

def exDB10 : DB :=
  { products := [exProd10], cartItems := [], orders := [], nextId := 1 }

/-- Claim C10: `CartService.addToCart` performs no positivity check on the
quantity: for an existing product with non-negative stock and no existing
cart row, any quantity `q ≤ 0` is accepted and stored as-is in the new
cart row, while the HTTP controller (`CartController.addToCart`) rejects
the same request with a 400 before the service runs. -/
theorem addToCart_accepts_nonpositive (db : DB) (u : Nat) (pid : Nat) (q : Int) (p : Product)
    (hp : findProduct db pid = some p) (hstock : 0 ≤ p.stock) (hq : q ≤ 0)
    (hnone : db.cartItems.find? (fun c => c.userId == u && c.productId == pid) = none) :
    (addToCart db u pid q).1 =
      .ok { id := db.nextId, userId := u, productId := pid, quantity := q } ∧
    ({ id := db.nextId, userId := u, productId := pid, quantity := q } : CartItemR) ∈
      (addToCart db u pid q).2.cartItems ∧
    (addToCartHttp db u pid q).1 = .badRequest ∧
    (addToCartHttp db u pid q).2 = db := by
  have hlt : ¬ p.stock < q := by omega
  refine ⟨?_, ?_, ?_, ?_⟩
  · unfold addToCart; rw [hp]; simp [hlt, hnone]
  · unfold addToCart; rw [hp]; simp [hlt, hnone]
  · unfold addToCartHttp; simp [hq]
  · unfold addToCartHttp; simp [hq]

/-- Witness for Claim C10: adding quantity 0 of the in-stock product 5
succeeds at the service layer and stores quantity 0, while the controller
answers 400. -/
theorem addToCart_accepts_nonpositive_witness :
    findProduct exDB10 5 = some exProd10 ∧
    (0 : Int) ≤ exProd10.stock ∧
    exDB10.cartItems.find? (fun c => c.userId == 1 && c.productId == 5) = none ∧
    (addToCart exDB10 1 5 0).1 =
      .ok { id := 1, userId := 1, productId := 5, quantity := 0 } ∧
    ({ id := 1, userId := 1, productId := 5, quantity := 0 } : CartItemR) ∈
      (addToCart exDB10 1 5 0).2.cartItems ∧
    (addToCartHttp exDB10 1 5 0).1 = .badRequest ∧
    (addToCartHttp exDB10 1 5 0).2 = exDB10 :=
  ⟨rfl, by decide, rfl,
    (addToCart_accepts_nonpositive exDB10 1 5 0 exProd10 rfl (by decide) (by decide) rfl).1,
    (addToCart_accepts_nonpositive exDB10 1 5 0 exProd10 rfl (by decide) (by decide) rfl).2.1,
    (addToCart_accepts_nonpositive exDB10 1 5 0 exProd10 rfl (by decide) (by decide) rfl).2.2.1,
    (addToCart_accepts_nonpositive exDB10 1 5 0 exProd10 rfl (by decide) (by decide) rfl).2.2.2⟩

/-! ### Claim C7: addToCart stock ceiling -/

/-- Claim C7: `addToCart` fails with `productNotFound` when the product is
absent; with the existing cart quantity for the product non-negative (the
data-model invariant the controller maintains), it fails with
`insufficientStock` exactly when `stock < existing + qty` and otherwise
upserts — incrementing the existing row or appending a new one — so the
touched row's quantity `existing + qty` never exceeds the product's
current stock. -/
theorem addToCart_stock_guard (db : DB) (u : Nat) (pid : Nat) (q : Int) :
    (findProduct db pid = none →
      (addToCart db u pid q).1 = .error .productNotFound ∧ (addToCart db u pid q).2 = db) ∧
    (∀ p, findProduct db pid = some p →
      (db.cartItems.find? (fun c => c.userId == u && c.productId == pid) = none →
        (p.stock < 0 + q →
          (addToCart db u pid q).1 = .error (.insufficientStock p.stock) ∧
          (addToCart db u pid q).2 = db) ∧
        (0 + q ≤ p.stock →
          (addToCart db u pid q).1 =
            .ok { id := db.nextId, userId := u, productId := pid, quantity := q } ∧
          (addToCart db u pid q).2.cartItems =
            db.cartItems ++ [{ id := db.nextId, userId := u, productId := pid, quantity := q }])) ∧
      (∀ c, db.cartItems.find? (fun x => x.userId == u && x.productId == pid) = some c →
        0 ≤ c.quantity →
        (p.stock < c.quantity + q →
          (∃ a, (addToCart db u pid q).1 = .error (.insufficientStock a)) ∧
          (addToCart db u pid q).2 = db) ∧
        (c.quantity + q ≤ p.stock →
          (addToCart db u pid q).1 = .ok { c with quantity := c.quantity + q } ∧
          (addToCart db u pid q).2.cartItems =
            db.cartItems.map (fun x =>
              if x.id == c.id then { c with quantity := c.quantity + q } else x)))) := by
  refine ⟨?_, ?_⟩
  · intro h
    unfold addToCart
    rw [h]
    exact ⟨rfl, rfl⟩
  · intro p hp
    refine ⟨?_, ?_⟩
    · intro hnone
      refine ⟨?_, ?_⟩
      · intro hlt
        have h1 : p.stock < q := by omega
        unfold addToCart
        rw [hp]
        simp [h1]
      · intro hle
        have h1 : ¬ p.stock < q := by omega
        unfold addToCart
        rw [hp]
        simp [h1, hnone]
    · intro c hc hcq
      refine ⟨?_, ?_⟩
      · intro hlt
        unfold addToCart
        rw [hp]
        by_cases h1 : p.stock < q
        · simp [h1]
        · simp only [h1, if_false, hc]
          simp [hlt]
      · intro hle
        have h1 : ¬ p.stock < q := by omega
        have h2 : ¬ p.stock < c.quantity + q := by omega
        unfold addToCart
        rw [hp]
        simp [h1, hc, h2]

/-- Witness for Claim C7: requesting 5 of product 5 (stock 3, nothing in
the cart yet) fails with `insufficientStock`, state unchanged. -/
theorem addToCart_stock_guard_witness :
    findProduct exDB10 5 = some exProd10 ∧
    exDB10.cartItems.find? (fun c => c.userId == 1 && c.productId == 5) = none ∧
    exProd10.stock < 0 + 5 ∧
    (addToCart exDB10 1 5 5).1 = .error (.insufficientStock exProd10.stock) ∧
    (addToCart exDB10 1 5 5).2 = exDB10 :=
  ⟨rfl, rfl, by decide,
    ((((addToCart_stock_guard exDB10 1 5 5).2 exProd10 rfl).1 rfl).1 (by decide)).1,
    ((((addToCart_stock_guard exDB10 1 5 5).2 exProd10 rfl).1 rfl).1 (by decide)).2⟩

/-! ### Lemmas about the stock folds and cart validation -/

/-- A per-item ite-sum vanishes when no entry matches the product id. -/
theorem sum_ite_zero {α : Type} (pidOf : α → Nat) (qtyOf : α → Int) (l : List α) (pid : Nat)
    (h : ∀ x ∈ l, pidOf x ≠ pid) :
    (l.map (fun x => if pidOf x = pid then qtyOf x else 0)).sum = 0 := by
  induction l with
  | nil => simp
  | cons a l ih =>
    have ha := h a (List.mem_cons_self a l)
    simp [ha, ih (fun x hx => h x (List.mem_cons_of_mem a hx))]

/-- With pairwise-distinct product ids, the ite-sum for a listed entry's id
collapses to that entry's quantity. -/
theorem sum_ite_single {α : Type} (pidOf : α → Nat) (qtyOf : α → Int) (l : List α)
    (e : α) (he : e ∈ l)
    (hdist : l.Pairwise (fun x y => pidOf x ≠ pidOf y)) :
    (l.map (fun x => if pidOf x = pidOf e then qtyOf x else 0)).sum = qtyOf e := by
  induction l with
  | nil => cases he
  | cons a l ih =>
    rcases List.mem_cons.1 he with rfl | he2
    · have hz : ∀ x ∈ l, pidOf x ≠ pidOf e := fun x hx hxe =>
        (List.pairwise_cons.1 hdist).1 x hx hxe.symm
      simp [sum_ite_zero pidOf qtyOf l (pidOf e) hz]
    · have hne : pidOf a ≠ pidOf e := (List.pairwise_cons.1 hdist).1 e he2
      simp [hne, ih he2 (List.pairwise_cons.1 hdist).2]

/-- The decrement loop subtracts, from every product, the summed quantity
of the cart entries naming its id. -/
theorem decrementStockAll_eq (entries : List (CartItemR × Product)) (products : List Product) :
    decrementStockAll entries products =
      products.map (fun p =>
        { p with stock := p.stock -
            (entries.map (fun e => if e.1.productId = p.id then e.1.quantity else 0)).sum }) := by
  induction entries generalizing products with
  | nil => simp [decrementStockAll]
  | cons e es ih =>
    unfold decrementStockAll at ih ⊢
    rw [List.foldl_cons, ih, List.map_map]
    refine List.map_congr_left ?_
    intro p _
    by_cases h : p.id = e.1.productId
    · simp [Function.comp, h, sub_sub]
    · have h2 : e.1.productId ≠ p.id := fun hx => h hx.symm
      simp [Function.comp, h, h2]

/-- The restore loop adds, to every product, the summed quantity of the
order items naming its id. -/
theorem restoreStockAll_eq (items : List OrderItemR) (products : List Product) :
    restoreStockAll items products =
      products.map (fun p =>
        { p with stock := p.stock +
            (items.map (fun it => if it.productId = p.id then it.quantity else 0)).sum }) := by
  induction items generalizing products with
  | nil => simp [restoreStockAll]
  | cons it items ih =>
    unfold restoreStockAll at ih ⊢
    rw [List.foldl_cons, ih, List.map_map]
    refine List.map_congr_left ?_
    intro p _
    by_cases h : p.id = it.productId
    · simp [Function.comp, h, add_assoc]
    · have h2 : it.productId ≠ p.id := fun hx => h hx.symm
      simp [Function.comp, h, h2]

/-- Clearing the user's rows really leaves none of the user's rows. -/
theorem filter_user_after_clear (l : List CartItemR) (u : Nat) :
    (l.filter (fun c => c.userId != u)).filter (fun c => c.userId == u) = [] := by
  rw [List.filter_eq_nil_iff]
  intro c hc
  have h := List.of_mem_filter hc
  simp only [bne_iff_ne, ne_eq] at h
  simp [h]

/-- `validateCart` passes exactly on a nonempty cart whose quantities are
all within stock. -/
theorem validateCart_isValid (db : DB) (u : Nat) :
    (validateCart db u).isValid = true ↔
      (cartEntries db u ≠ [] ∧ ∀ e ∈ cartEntries db u, e.1.quantity ≤ e.2.stock) := by
  unfold validateCart
  simp only [List.isEmpty_eq_true, List.isEmpty_iff, List.append_eq_nil]
  constructor
  · intro h
    rcases h with ⟨h1, h2⟩
    constructor
    · intro hemp
      rw [if_pos hemp] at h1
      exact absurd h1 (by simp)
    · intro e he
      by_contra hgt
      have : (if e.2.stock < e.1.quantity then
          some (CartIssue.stockShort e.2.name e.2.stock e.1.quantity) else none) = none := by
        rw [List.filterMap_eq_nil_iff] at h2
        exact h2 e he
      rw [if_pos (by omega)] at this
      exact absurd this (by simp)
  · intro ⟨h1, h2⟩
    constructor
    · rw [if_neg h1]
    · rw [List.filterMap_eq_nil_iff]
      intro e he
      rw [if_neg (by have := h2 e he; omega)]

/-- The summary carried by `validateCart` is the cart summary of the
user's entries. -/
theorem validateCart_cart (db : DB) (u : Nat) :
    (validateCart db u).cart = getCart db u := rfl

/-- Case analysis of `createOrderWith`: each error branch returns the
pre-state untouched; the success branch performs the whole transaction. -/
theorem createOrderWith_invalid (db : DB) (u : Nat) (failAt : Option TxStep)
    (h1 : (validateCart db u).isValid = false) :
    createOrderWith db u failAt =
      (.error (.cartValidationFailed (validateCart db u).issues), db) := by
  unfold createOrderWith
  simp [h1]

/-- An injected transaction failure aborts with the pre-state returned:
Prisma rolls the `$transaction` back. -/
theorem createOrderWith_aborted (db : DB) (u : Nat) (step : TxStep)
    (h1 : (validateCart db u).isValid = true) :
    createOrderWith db u (some step) = (.error .transactionAborted, db) := by
  have h2 : (validateCart db u).cart.items.isEmpty = false := by
    have hne := ((validateCart_isValid db u).1 h1).1
    rw [validateCart_cart]
    unfold getCart calculateCartSummary
    simpa [List.isEmpty_iff] using hne
  unfold createOrderWith
  simp [h1, h2]

/-- The success branch of `createOrderWith` in closed form. -/
theorem createOrderWith_ok (db : DB) (u : Nat)
    (h1 : (validateCart db u).isValid = true) :
    createOrderWith db u none =
      (.ok { id := db.nextId, userId := u, status := .PENDING,
             totalAmount := (validateCart db u).cart.total, paymentStatus := .PENDING,
             items := (validateCart db u).cart.items.map (fun e =>
               { productId := e.1.productId, quantity := e.1.quantity,
                 price := unitPrice e.2 }) },
       { products := decrementStockAll (validateCart db u).cart.items db.products
         cartItems := db.cartItems.filter (fun c => c.userId != u)
         orders := db.orders ++
           [{ id := db.nextId, userId := u, status := .PENDING,
              totalAmount := (validateCart db u).cart.total, paymentStatus := .PENDING,
              items := (validateCart db u).cart.items.map (fun e =>
                { productId := e.1.productId, quantity := e.1.quantity,
                  price := unitPrice e.2 }) }]
         nextId := db.nextId + 1 }) := by
  have h2 : (validateCart db u).cart.items.isEmpty = false := by
    have hne := ((validateCart_isValid db u).1 h1).1
    rw [validateCart_cart]
    unfold getCart calculateCartSummary
    simpa [List.isEmpty_iff] using hne
  unfold createOrderWith
  simp [h1, h2]

/-! ### Claim C2: createOrder is atomic -/

/-- Claim C2: `createOrder` (with an arbitrary injected transaction-step
failure) either succeeds — and then an order holding one item per cart
entry is appended, every ordered product's stock drops by exactly its
ordered quantity (products not in the cart are untouched), and the user's
cart is empty — or it fails and the state is exactly the pre-state.  The
pairwise-distinct product ids are the cart's (userId, productId) unique
constraint. -/
theorem createOrder_atomic (db : DB) (u : Nat) (failAt : Option TxStep)
    (hdist : (cartEntries db u).Pairwise (fun a b => a.1.productId ≠ b.1.productId)) :
    (∀ e, (createOrderWith db u failAt).1 = .error e → (createOrderWith db u failAt).2 = db) ∧
    (∀ o, (createOrderWith db u failAt).1 = .ok o →
      o.items = (cartEntries db u).map (fun e =>
        { productId := e.1.productId, quantity := e.1.quantity, price := unitPrice e.2 }) ∧
      (createOrderWith db u failAt).2.orders = db.orders ++ [o] ∧
      (createOrderWith db u failAt).2.cartItems.filter (fun c => c.userId == u) = [] ∧
      (∀ e ∈ cartEntries db u, ∀ p ∈ db.products, p.id = e.1.productId →
        { p with stock := p.stock - e.1.quantity } ∈ (createOrderWith db u failAt).2.products) ∧
      (∀ p ∈ db.products, (∀ e ∈ cartEntries db u, e.1.productId ≠ p.id) →
        p ∈ (createOrderWith db u failAt).2.products)) := by
  constructor
  · intro e he
    by_cases h1 : (validateCart db u).isValid = true
    · cases failAt with
      | none =>
        rw [createOrderWith_ok db u h1] at he
        exact absurd he (by simp)
      | some s =>
        rw [createOrderWith_aborted db u s h1]
    · have h1f : (validateCart db u).isValid = false := by
        cases hb : (validateCart db u).isValid
        · rfl
        · exact absurd hb h1
      rw [createOrderWith_invalid db u failAt h1f]
  · intro o ho
    have h1 : (validateCart db u).isValid = true := by
      by_contra hniv
      have h1f : (validateCart db u).isValid = false := by
        cases hb : (validateCart db u).isValid
        · rfl
        · exact absurd hb hniv
      rw [createOrderWith_invalid db u failAt h1f] at ho
      exact absurd ho (by simp)
    have hfail : failAt = none := by
      cases failAt with
      | none => rfl
      | some s =>
        rw [createOrderWith_aborted db u s h1] at ho
        exact absurd ho (by simp)
    subst hfail
    have hitems : (validateCart db u).cart.items = cartEntries db u := rfl
    rw [createOrderWith_ok db u h1] at ho ⊢
    simp only [Except.ok.injEq] at ho
    subst ho
    refine ⟨rfl, rfl, filter_user_after_clear db.cartItems u, ?_, ?_⟩
    · intro e he p hp hpe
      simp only [hitems]
      rw [decrementStockAll_eq]
      have hsum :
          ((cartEntries db u).map
            (fun x => if x.1.productId = p.id then x.1.quantity else 0)).sum =
            e.1.quantity := by
        rw [hpe]
        exact sum_ite_single (fun x => x.1.productId) (fun x => x.1.quantity)
          (cartEntries db u) e he hdist
      refine List.mem_map.2 ⟨p, hp, ?_⟩
      rw [hsum]
    · intro p hp hnone
      simp only [hitems]
      rw [decrementStockAll_eq]
      have hsum :
          ((cartEntries db u).map
            (fun x => if x.1.productId = p.id then x.1.quantity else 0)).sum = 0 :=
        sum_ite_zero (fun x => x.1.productId) (fun x => x.1.quantity)
          (cartEntries db u) p.id hnone
      refine List.mem_map.2 ⟨p, hp, ?_⟩
      rw [hsum]
      simp

def exProdA : Product := { id := 5, name := "A", price := 100, stock := 5, discount := none }

def exCartRow : CartItemR := { id := 1, userId := 1, productId := 5, quantity := 3 }

def exDB2 : DB := { products := [exProdA], cartItems := [exCartRow], orders := [], nextId := 2 }

def exOrder2 : OrderR :=
  { id := 2, userId := 1, status := .PENDING,
    totalAmount := (validateCart exDB2 1).cart.total, paymentStatus := .PENDING,
    items := [{ productId := 5, quantity := 3, price := 100 }] }

/-- Witness for Claim C2: user 1 checks out a cart of 3 units of product 5
(stock 5, price 100, no discount): the order is created with one matching
item and total 300, the cart ends empty and product 5's stock drops to 2. -/
theorem createOrder_atomic_witness :
    (cartEntries exDB2 1).Pairwise (fun a b => a.1.productId ≠ b.1.productId) ∧
    (createOrderWith exDB2 1 none).1 = .ok exOrder2 ∧
    exOrder2.items = (cartEntries exDB2 1).map (fun e =>
      { productId := e.1.productId, quantity := e.1.quantity, price := unitPrice e.2 }) ∧
    (createOrderWith exDB2 1 none).2.orders = exDB2.orders ++ [exOrder2] ∧
    (createOrderWith exDB2 1 none).2.cartItems.filter (fun c => c.userId == 1) = [] ∧
    ({ exProdA with stock := 2 } : Product) ∈ (createOrderWith exDB2 1 none).2.products ∧
    exOrder2.totalAmount = 300 := by
  have hdist : (cartEntries exDB2 1).Pairwise (fun a b => a.1.productId ≠ b.1.productId) := by
    decide
  have hments : (exCartRow, exProdA) ∈ cartEntries exDB2 1 := by
    have h : cartEntries exDB2 1 = [(exCartRow, exProdA)] := rfl
    rw [h]
    exact List.mem_singleton.2 rfl
  have hmemp : exProdA ∈ exDB2.products := List.mem_singleton.2 rfl
  have hmain := (createOrder_atomic exDB2 1 none hdist).2 exOrder2 rfl
  exact ⟨hdist, rfl, hmain.1, hmain.2.1, hmain.2.2.1,
    hmain.2.2.2.1 (exCartRow, exProdA) hments exProdA hmemp rfl,
    by norm_num [exOrder2, validateCart, getCart, calculateCartSummary,
      cartEntries, exDB2, exCartRow, exProdA, findProduct, summaryStep, round2,
      Option.getD, List.filter, List.filterMap, List.find?]⟩

/-! ### Claim C9: the frozen total matches the order's own items -/

/-- Per line, the discounted unit price times quantity equals the raw line
subtotal minus the raw line discount amount. -/
theorem unitPrice_line (e : CartItemR × Product) :
    unitPrice e.2 * (e.1.quantity : ℚ) =
      e.2.price * (e.1.quantity : ℚ) -
        e.2.price * (e.1.quantity : ℚ) * (e.2.discount.getD 0) / 100 := by
  unfold unitPrice
  cases hd : e.2.discount with
  | none => simp [hd]
  | some d =>
    by_cases h : d = 0
    · simp [hd, h]
    · simp only [hd, h, if_neg, ite_false, Option.getD_some]
      ring

/-- Summed over the cart, discounted line totals equal raw subtotal minus
raw discount. -/
theorem sum_unitPrice (l : List (CartItemR × Product)) :
    (l.map (fun e => unitPrice e.2 * (e.1.quantity : ℚ))).sum =
      (l.map (fun e => e.2.price * (e.1.quantity : ℚ))).sum -
      (l.map (fun e => e.2.price * (e.1.quantity : ℚ) * (e.2.discount.getD 0) / 100)).sum := by
  rw [← sum_map_sub]
  exact congrArg List.sum (List.map_congr_left (fun e _ => unitPrice_line e))

/-- Claim C9: every order produced by `createOrder` stores as `totalAmount`
exactly the 2-decimal rounding of the sum of its own items' line totals
(unit price × quantity, the unit price being the discounted product
price). -/
theorem createOrder_totalAmount (db : DB) (u : Nat) :
    ∀ o, (createOrder db u).1 = .ok o →
      o.totalAmount = round2 ((o.items.map (fun it => it.price * (it.quantity : ℚ))).sum) := by
  intro o ho
  unfold createOrder at ho
  have h1 : (validateCart db u).isValid = true := by
    by_contra hniv
    have h1f : (validateCart db u).isValid = false := by
      cases hb : (validateCart db u).isValid
      · rfl
      · exact absurd hb hniv
    rw [createOrderWith_invalid db u none h1f] at ho
    exact absurd ho (by simp)
  rw [createOrderWith_ok db u h1] at ho
  simp only [Except.ok.injEq] at ho
  subst ho
  have hitems : (validateCart db u).cart.items = cartEntries db u := rfl
  simp only [hitems, validateCart_cart, List.map_map]
  have hcomp :
      ((fun it : OrderItemR => it.price * (it.quantity : ℚ)) ∘ (fun e : CartItemR × Product =>
        ({ productId := e.1.productId, quantity := e.1.quantity,
           price := unitPrice e.2 } : OrderItemR))) =
      fun e : CartItemR × Product => unitPrice e.2 * (e.1.quantity : ℚ) := by
    funext e
    rfl
  rw [hcomp, sum_unitPrice]
  exact (getCart_fields db u).2.2.2

/-- Witness for Claim C9: the concrete checkout of `exDB2` freezes
totalAmount 300 = round2 (100 × 3). -/
theorem createOrder_totalAmount_witness :
    (createOrder exDB2 1).1 = .ok exOrder2 ∧
    exOrder2.totalAmount =
      round2 ((exOrder2.items.map (fun it => it.price * (it.quantity : ℚ))).sum) :=
  ⟨rfl, createOrder_totalAmount exDB2 1 exOrder2 rfl⟩

/-! ### Claim C5: the stored unit price is NOT rounded per item -/

def exProd5 : Product :=
  { id := 5, name := "A", price := 1001 / 100, stock := 5, discount := some 15 }

def exRow5 : CartItemR := { id := 1, userId := 1, productId := 5, quantity := 1 }

def exDB5 : DB := { products := [exProd5], cartItems := [exRow5], orders := [], nextId := 2 }

/-- The list of unit prices stored on an order-creation result. -/
def orderItemPrices (r : Except SvcError OrderR) : List ℚ :=
  match r with
  | .ok o => o.items.map (fun it => it.price)
  | .error _ => []

/-- Counterexample to Claim C5: checking out one unit of a product priced
10.01 with a 15% discount stores the exact unit price 8.5085, not the
2-decimal rounding 8.51 the claim asserts — `createOrder` never rounds
the per-item price. -/
theorem orderItem_price_not_rounded_counterexample :
    orderItemPrices (createOrder exDB5 1).1 = [(17017 : ℚ) / 2000] ∧
    round2 ((17017 : ℚ) / 2000) = (851 : ℚ) / 100 ∧
    (17017 : ℚ) / 2000 ≠ (851 : ℚ) / 100 := by
  have h1 : (validateCart exDB5 1).isValid = true := by decide
  have hunit : unitPrice exProd5 = (17017 : ℚ) / 2000 := by
    norm_num [unitPrice, exProd5]
  refine ⟨?_, by norm_num [round2], by norm_num⟩
  unfold createOrder
  rw [createOrderWith_ok exDB5 1 h1]
  have hitems : (validateCart exDB5 1).cart.items = [(exRow5, exProd5)] := rfl
  simp [orderItemPrices, hitems, hunit]

/-- Claim C5 amended: the stored OrderItem unit price is the product's
current price reduced by its discount percentage, stored exactly as
computed with no per-item rounding; a product with no discount or a zero
discount stores the raw price. -/
theorem orderItem_price_amended (db : DB) (u : Nat) :
    ∀ o, (createOrder db u).1 = .ok o →
      o.items.map (fun it => it.price) = (cartEntries db u).map (fun e => unitPrice e.2) ∧
      (∀ e ∈ cartEntries db u,
        (∀ d, e.2.discount = some d → d ≠ 0 →
          unitPrice e.2 = e.2.price * (1 - d / 100)) ∧
        (e.2.discount = none ∨ e.2.discount = some 0 → unitPrice e.2 = e.2.price)) := by
  intro o ho
  unfold createOrder at ho
  have h1 : (validateCart db u).isValid = true := by
    by_contra hniv
    have h1f : (validateCart db u).isValid = false := by
      cases hb : (validateCart db u).isValid
      · rfl
      · exact absurd hb hniv
    rw [createOrderWith_invalid db u none h1f] at ho
    exact absurd ho (by simp)
  rw [createOrderWith_ok db u h1] at ho
  simp only [Except.ok.injEq] at ho
  subst ho
  constructor
  · have hitems : (validateCart db u).cart.items = cartEntries db u := rfl
    simp only [hitems, List.map_map]
    rfl
  · intro e _
    constructor
    · intro d hd hdne
      unfold unitPrice
      rw [hd]
      exact if_neg hdne
    · intro hcase
      unfold unitPrice
      rcases hcase with h | h
      · rw [h]
      · rw [h]
        exact if_pos rfl

def exOrder5 : OrderR :=
  { id := 2, userId := 1, status := .PENDING,
    totalAmount := (validateCart exDB5 1).cart.total, paymentStatus := .PENDING,
    items := [{ productId := 5, quantity := 1, price := unitPrice exProd5 }] }

/-- Witness for Claim C5 (amended): on the concrete `exDB5` checkout the
order stores exactly 10.01 × 0.85 = 8.5085 as the unit price. -/
theorem orderItem_price_amended_witness :
    (createOrder exDB5 1).1 = .ok exOrder5 ∧
    exOrder5.items.map (fun it => it.price) =
      (cartEntries exDB5 1).map (fun e => unitPrice e.2) ∧
    unitPrice exProd5 = (17017 : ℚ) / 2000 :=
  ⟨rfl, (orderItem_price_amended exDB5 1 exOrder5 rfl).1,
    by norm_num [unitPrice, exProd5]⟩

/-! ### Claim C1: createOrder does not run syncCartWithStock -/

def exProd1 : Product := { id := 5, name := "A", price := 100, stock := 2, discount := none }

def exRow1 : CartItemR := { id := 1, userId := 1, productId := 5, quantity := 5 }

def exDB1 : DB := { products := [exProd1], cartItems := [exRow1], orders := [], nextId := 2 }

def exOrder1 : OrderR :=
  { id := 2, userId := 1, status := .PENDING,
    totalAmount := (validateCart (syncCartWithStock exDB1 1).2 1).cart.total,
    paymentStatus := .PENDING,
    items := [{ productId := 5, quantity := 2, price := 100 }] }

/-- Counterexample to Claim C1: with 5 units of a product in the cart but
only 2 in stock, the spec's pipeline (sync then validate) clamps the row
to 2 and creates the order, while the shipped `createOrder` performs no
sync: it fails with `cartValidationFailed` and changes nothing.  So
`createOrder` does not first run `syncCartWithStock`. -/
theorem createOrder_no_sync_counterexample :
    (createOrder exDB1 1).1 =
      .error (.cartValidationFailed [.stockShort "A" 2 5]) ∧
    (createOrder exDB1 1).2 = exDB1 ∧
    (syncCartWithStock exDB1 1).2.cartItems =
      [{ id := 1, userId := 1, productId := 5, quantity := 2 }] ∧
    (validateCart (syncCartWithStock exDB1 1).2 1).isValid = true ∧
    (createOrderAsSpecified exDB1 1).1 = .ok exOrder1 ∧
    (createOrderAsSpecified exDB1 1).1 ≠ (createOrder exDB1 1).1 := by
  refine ⟨rfl, rfl, rfl, by decide, ?_, ?_⟩
  · have h1 : (validateCart (syncCartWithStock exDB1 1).2 1).isValid = true := by decide
    show (createOrder (syncCartWithStock exDB1 1).2 1).1 = .ok exOrder1
    unfold createOrder
    rw [createOrderWith_ok (syncCartWithStock exDB1 1).2 1 h1]
    rfl
  · have h1 : (validateCart (syncCartWithStock exDB1 1).2 1).isValid = true := by decide
    show (createOrder (syncCartWithStock exDB1 1).2 1).1 ≠ (createOrder exDB1 1).1
    unfold createOrder
    rw [createOrderWith_ok (syncCartWithStock exDB1 1).2 1 h1]
    intro hcontra
    exact Except.noConfusion hcontra

/-- Claim C1 amended: `createOrder` does not run `syncCartWithStock`; it
validates the stored cart directly, failing with `cartValidationFailed`
before any order is created — the issue list is `[.empty]` when the cart
is empty and contains a `stockShort` issue for every item whose quantity
still exceeds its product's stock — leaving the state unchanged; when the
cart is nonempty and within stock the creation proceeds. -/
theorem createOrder_validates_without_sync (db : DB) (u : Nat) :
    (cartEntries db u = [] →
      (createOrder db u).1 = .error (.cartValidationFailed [.empty]) ∧
      (createOrder db u).2 = db) ∧
    (∀ e ∈ cartEntries db u, e.2.stock < e.1.quantity →
      ∃ issues, (createOrder db u).1 = .error (.cartValidationFailed issues) ∧
        CartIssue.stockShort e.2.name e.2.stock e.1.quantity ∈ issues ∧
        (createOrder db u).2 = db) ∧
    ((cartEntries db u ≠ [] ∧ ∀ e ∈ cartEntries db u, e.1.quantity ≤ e.2.stock) →
      ∃ o, (createOrder db u).1 = .ok o) := by
  refine ⟨?_, ?_, ?_⟩
  · intro hemp
    have hiss : (validateCart db u).issues = [.empty] := by
      unfold validateCart
      simp [hemp]
    have hval : (validateCart db u).isValid = false := by
      have h2 : (validateCart db u).isValid = (validateCart db u).issues.isEmpty := rfl
      rw [h2, hiss]
      rfl
    unfold createOrder
    rw [createOrderWith_invalid db u none hval, hiss]
    exact ⟨rfl, rfl⟩
  · intro e he hlt
    have hmem : CartIssue.stockShort e.2.name e.2.stock e.1.quantity ∈
        (validateCart db u).issues := by
      unfold validateCart
      refine List.mem_append.2 (Or.inr ?_)
      refine List.mem_filterMap.2 ⟨e, he, ?_⟩
      rw [if_pos hlt]
    have hval : (validateCart db u).isValid = false := by
      have h2 : (validateCart db u).isValid = (validateCart db u).issues.isEmpty := rfl
      rw [h2]
      cases hi : (validateCart db u).issues with
      | nil => rw [hi] at hmem; cases hmem
      | cons a l => rfl
    unfold createOrder
    rw [createOrderWith_invalid db u none hval]
    exact ⟨(validateCart db u).issues, rfl, hmem, rfl⟩
  · intro hok
    have h1 : (validateCart db u).isValid = true := (validateCart_isValid db u).2 hok
    unfold createOrder
    rw [createOrderWith_ok db u h1]
    exact ⟨_, rfl⟩

/-- Witness for Claim C1 (amended): on `exDB1` the over-stock row yields a
`cartValidationFailed` carrying its `stockShort` issue, state unchanged. -/
theorem createOrder_validates_without_sync_witness :
    ((exRow1, exProd1) ∈ cartEntries exDB1 1 ∧ exProd1.stock < exRow1.quantity) ∧
    (∃ issues, (createOrder exDB1 1).1 = .error (.cartValidationFailed issues) ∧
      CartIssue.stockShort exProd1.name exProd1.stock exRow1.quantity ∈ issues ∧
      (createOrder exDB1 1).2 = exDB1) :=
  ⟨⟨by
      have h : cartEntries exDB1 1 = [(exRow1, exProd1)] := rfl
      rw [h]
      exact List.mem_singleton.2 rfl,
    by decide⟩,
    (createOrder_validates_without_sync exDB1 1).2.1 (exRow1, exProd1)
      (by
        have h : cartEntries exDB1 1 = [(exRow1, exProd1)] := rfl
        rw [h]
        exact List.mem_singleton.2 rfl)
      (by decide)⟩

/-! ### Claim C6: cancelOrder gates, ownership, and exact stock restore -/

/-- With pairwise-distinct product ids, the restore loop raises each
ordered product's stock by exactly its item's quantity and touches no
other product. -/
theorem restoreStockAll_mem (items : List OrderItemR) (products : List Product)
    (hdist : items.Pairwise (fun a b => a.productId ≠ b.productId)) :
    (∀ it ∈ items, ∀ p ∈ products, p.id = it.productId →
      { p with stock := p.stock + it.quantity } ∈ restoreStockAll items products) ∧
    (∀ p ∈ products, (∀ it ∈ items, it.productId ≠ p.id) →
      p ∈ restoreStockAll items products) := by
  constructor
  · intro it hit p hp hpe
    rw [restoreStockAll_eq]
    have hsum :
        (items.map (fun x => if x.productId = p.id then x.quantity else 0)).sum =
          it.quantity := by
      rw [hpe]
      exact sum_ite_single (fun x => x.productId) (fun x => x.quantity) items it hit hdist
    refine List.mem_map.2 ⟨p, hp, ?_⟩
    rw [hsum]
  · intro p hp hnone
    rw [restoreStockAll_eq]
    have hsum :
        (items.map (fun x => if x.productId = p.id then x.quantity else 0)).sum = 0 :=
      sum_ite_zero (fun x => x.productId) (fun x => x.quantity) items p.id hnone
    refine List.mem_map.2 ⟨p, hp, ?_⟩
    rw [hsum]
    simp

/-- Claim C6: `cancelOrder` fails with `unauthorizedCancel` when a
requesting user is supplied who does not own the order; it succeeds only
from PENDING or CONFIRMED (failing with `cannotCancel` otherwise, state
unchanged); on success each ordered product's stock rises by exactly that
order item's quantity (other products untouched) and the order's status
becomes CANCELLED, both inside the one rollback-protected transaction of
the embedding.  Pairwise-distinct item product ids reflect the
one-cart-row-per-product origin of order items. -/
theorem cancelOrder_spec (db : DB) (orderId : Nat) (o : OrderR) (ru : Option Nat)
    (hfind : findOrder db orderId = some o)
    (hdist : o.items.Pairwise (fun a b => a.productId ≠ b.productId)) :
    (∀ u, ru = some u → o.userId ≠ u →
      (cancelOrder db orderId ru).1 = .error .unauthorizedCancel ∧
      (cancelOrder db orderId ru).2 = db) ∧
    (o.status ∉ [OrderStatus.PENDING, OrderStatus.CONFIRMED] →
      (ru = none ∨ ru = some o.userId) →
      (cancelOrder db orderId ru).1 = .error (.cannotCancel o.status) ∧
      (cancelOrder db orderId ru).2 = db) ∧
    ((o.status = .PENDING ∨ o.status = .CONFIRMED) →
      (ru = none ∨ ru = some o.userId) →
      (cancelOrder db orderId ru).1 = .ok { o with status := .CANCELLED } ∧
      (∀ it ∈ o.items, ∀ p ∈ db.products, p.id = it.productId →
        { p with stock := p.stock + it.quantity } ∈ (cancelOrder db orderId ru).2.products) ∧
      (∀ p ∈ db.products, (∀ it ∈ o.items, it.productId ≠ p.id) →
        p ∈ (cancelOrder db orderId ru).2.products) ∧
      (cancelOrder db orderId ru).2.orders =
        db.orders.map (fun x =>
          if x.id == orderId then { x with status := OrderStatus.CANCELLED } else x)) := by
  refine ⟨?_, ?_, ?_⟩
  · intro u hru hne
    subst hru
    have howned : (o.userId == u) = false := by simp [hne]
    unfold cancelOrder
    rw [hfind]
    simp [howned]
  · intro hst hru
    rcases hru with rfl | rfl
    · unfold cancelOrder
      rw [hfind]
      simp [hst]
    · unfold cancelOrder
      rw [hfind]
      simp [hst]
  · intro hst hru
    have hmem : o.status ∈ [OrderStatus.PENDING, OrderStatus.CONFIRMED] := by
      rcases hst with h | h <;> simp [h]
    have hcancel : cancelOrder db orderId ru =
        (.ok { o with status := .CANCELLED },
          { db with
              products := restoreStockAll o.items db.products
              orders := db.orders.map (fun x =>
                if x.id == orderId then { x with status := OrderStatus.CANCELLED } else x) }) := by
      rcases hru with rfl | rfl
      · unfold cancelOrder
        rw [hfind]
        simp [hmem]
      · unfold cancelOrder
        rw [hfind]
        simp [hmem]
    rw [hcancel]
    exact ⟨rfl, (restoreStockAll_mem o.items db.products hdist).1,
      (restoreStockAll_mem o.items db.products hdist).2, rfl⟩

def exItem6 : OrderItemR := { productId := 5, quantity := 3, price := 100 }

def exOrder6 : OrderR :=
  { id := 7, userId := 2, status := .CONFIRMED, totalAmount := 300,
    paymentStatus := .PENDING, items := [exItem6] }

def exProd6 : Product := { id := 5, name := "A", price := 100, stock := 2, discount := none }

def exDB6 : DB := { products := [exProd6], cartItems := [], orders := [exOrder6], nextId := 8 }

/-- Witness for Claim C6: owner 2 cancels CONFIRMED order 7 holding 3
units of product 5; the order becomes CANCELLED and product 5's stock
rises from 2 to exactly 5. -/
theorem cancelOrder_spec_witness :
    findOrder exDB6 7 = some exOrder6 ∧
    exOrder6.items.Pairwise (fun a b => a.productId ≠ b.productId) ∧
    (cancelOrder exDB6 7 (some 2)).1 = .ok { exOrder6 with status := .CANCELLED } ∧
    ({ exProd6 with stock := 5 } : Product) ∈ (cancelOrder exDB6 7 (some 2)).2.products :=
  ⟨rfl, by decide,
    ((cancelOrder_spec exDB6 7 exOrder6 (some 2) rfl (by decide)).2.2
      (Or.inr rfl) (Or.inr rfl)).1,
    ((cancelOrder_spec exDB6 7 exOrder6 (some 2) rfl (by decide)).2.2
      (Or.inr rfl) (Or.inr rfl)).2.1 exItem6 (List.mem_singleton.2 rfl) exProd6
      (List.mem_singleton.2 rfl) rfl⟩
